import Mathlib

/-!
# Verification of the Indian Stock Analysis System core

A shallow embedding, in Lean 4, of the deterministic daily analytics core of
the Indian Stock Analysis System repository: price bars, technical indicators
(SMA / EMA / RSI / ATR / SuperTrend / volume ratio), the weighted scoring
configuration, the signal generator with its risk-reward gate, the signal
lifecycle state machine, and the two React data-fetch handlers plus the
chart-data pairing of `StockDetail.js`.

The backend services (`app/services/indicators.py`, `app/services/scoring.py`,
referenced by `system_architecture.md` and `TECHNICAL_DOCUMENTATION.md`) are
not part of the repository snapshot; those components are modelled from the
specification, as marked on each definition.  The frontend handlers and the
chart pairing are translated directly from
`stock-analyzer/frontend/src/pages/Dashboard.js` and `StockDetail.js`.

Prices, indicator values and scores are modelled as rationals (`ℚ`); the SQL
DECIMAL columns and JS numbers are exact decimal values in every scenario the
spec describes, so `ℚ` is a faithful carrier.
-/

/-- A daily OHLCV price bar (`stock_prices` row; `PriceBar` of the spec). -/
structure PriceBar where
  date : Nat
  open_ : ℚ
  high : ℚ
  low : ℚ
  close : ℚ
  volume : ℚ
deriving Repr, DecidableEq

/-- Signal direction, `trading_signals.signal_type`: 'BUY' or 'SELL'. -/
inductive SignalType where
  | BUY
  | SELL
deriving Repr, DecidableEq

/-- Lifecycle status, `trading_signals.status`:
'ACTIVE', 'HIT_TARGET_1', 'HIT_TARGET_2', 'STOPPED_OUT', 'EXPIRED'. -/
inductive SignalStatus where
  | ACTIVE
  | HIT_TARGET_1
  | HIT_TARGET_2
  | STOPPED_OUT
  | EXPIRED
deriving Repr, DecidableEq

/-- Signal strength, `trading_signals.signal_strength`:
'STRONG', 'MODERATE', 'WEAK'. -/
inductive SignalStrength where
  | STRONG
  | MODERATE
  | WEAK
deriving Repr, DecidableEq

/-- A trading signal (`trading_signals` row; `Signal` of the spec). -/
structure Signal where
  stock_id : Nat
  signal_date : Nat
  signal_type : SignalType
  signal_strength : SignalStrength
  entry_price : ℚ
  target_1 : ℚ
  target_2 : ℚ
  stop_loss : ℚ
  risk_amount : ℚ
  reward_ratio_1 : ℚ
  reward_ratio_2 : ℚ
  status : SignalStatus
  expiry_date : Nat
deriving Repr, DecidableEq

namespace Lifecycle

/-- Modelled from the spec: §4.4 Signal Lifecycle Tracker (the tracker's code,
part of the FastAPI backend, is absent from the repository snapshot).
One daily evaluation of an ACTIVE signal against the day's price bar, in the
spec's strict priority order: stop-loss breach first, then target_2, then
target_1, then expiry; a non-ACTIVE signal is terminal and is left unchanged. -/
def evaluateSignal (sig : Signal) (bar : PriceBar) (today : Nat) : SignalStatus :=
  if sig.status ≠ SignalStatus.ACTIVE then sig.status
  else
    match sig.signal_type with
    | SignalType.BUY =>
        if bar.low ≤ sig.stop_loss then SignalStatus.STOPPED_OUT
        else if sig.target_2 ≤ bar.high then SignalStatus.HIT_TARGET_2
        else if sig.target_1 ≤ bar.high then SignalStatus.HIT_TARGET_1
        else if sig.expiry_date < today then SignalStatus.EXPIRED
        else SignalStatus.ACTIVE
    | SignalType.SELL =>
        if sig.stop_loss ≤ bar.high then SignalStatus.STOPPED_OUT
        else if bar.low ≤ sig.target_2 then SignalStatus.HIT_TARGET_2
        else if bar.low ≤ sig.target_1 then SignalStatus.HIT_TARGET_1
        else if sig.expiry_date < today then SignalStatus.EXPIRED
        else SignalStatus.ACTIVE

end Lifecycle

/-- The BUY-side stop breach condition: the bar's low touches or pierces the
stop, and the SELL-side condition: the bar's high touches or pierces it. -/
def stopBreached (sig : Signal) (bar : PriceBar) : Prop :=
  match sig.signal_type with
  | SignalType.BUY => bar.low ≤ sig.stop_loss
  | SignalType.SELL => sig.stop_loss ≤ bar.high

instance (sig : Signal) (bar : PriceBar) : Decidable (stopBreached sig bar) := by
  unfold stopBreached
  cases sig.signal_type <;> infer_instance

namespace ActiveUniqueness

/-- The `trading_signals` rows that the `idx_signals_status` queries select for
one stock: status ACTIVE and matching stock_id. -/
def activeFor (stock : Nat) (r : Signal) : Bool :=
  decide (r.stock_id = stock) && decide (r.status = SignalStatus.ACTIVE)

/-- Number of ACTIVE signals a state holds for one stock. -/
def countActiveFor (sigs : List Signal) (stock : Nat) : Nat :=
  (sigs.filter (activeFor stock)).length

/-- The lifecycle-state query the generator issues before emitting
("the generator must query lifecycle state before emitting"). -/
def hasActiveFor (sigs : List Signal) (stock : Nat) : Bool :=
  sigs.any (activeFor stock)

/-- The spec's per-stock ownership invariant: at most one signal is ACTIVE
per stock at any time. -/
def atMostOneActive (sigs : List Signal) : Prop :=
  ∀ stock : Nat, countActiveFor sigs stock ≤ 1

/-- Modelled from the spec: §4.3 / §4.4 (the Signal Generator's code, part of
the FastAPI backend, is absent from the repository snapshot).  One
signal-generation step for one stock: when the decision logic produced a
candidate signal, it is recorded — created ACTIVE for that stock, per the
`trading_signals.status` default — unless the stock already has an ACTIVE
signal outstanding, in which case nothing is emitted. -/
def generateStep (sigs : List Signal) (stock : Nat) (cand : Option Signal) :
    List Signal :=
  if hasActiveFor sigs stock then sigs
  else
    match cand with
    | some sig =>
        sigs ++ [{ sig with stock_id := stock, status := SignalStatus.ACTIVE }]
    | none => sigs

/-- Modelled from the spec: §4.4 (the Lifecycle Tracker's code is absent from
the repository snapshot).  The daily pass over all stored signals: each
signal's status is replaced by its evaluation against the day's bar for its
stock; no other field changes. -/
def lifecycleStep (sigs : List Signal) (bars : Nat → PriceBar) (today : Nat) :
    List Signal :=
  sigs.map (fun sig =>
    { sig with status := Lifecycle.evaluateSignal sig (bars sig.stock_id) today })

end ActiveUniqueness

/-! ## Configuration (system_config defaults; §4.2 / §7 of the spec) -/

namespace Config

/-- The five component weights of the scoring engine
(`system_architecture.md`, "Scoring System (0-100)"). -/
structure Weights where
  ma_alignment : ℚ
  supertrend : ℚ
  rsi : ℚ
  volume : ℚ
  sentiment : ℚ
deriving Repr, DecidableEq

/-- Sum of the five component weights. -/
def Weights.total (w : Weights) : ℚ :=
  w.ma_alignment + w.supertrend + w.rsi + w.volume + w.sentiment

/-- The default weights: MA 30%, SuperTrend 25%, RSI 15%, Volume 10%,
Sentiment 20% (`system_architecture.md`). -/
def defaultWeights : Weights :=
  { ma_alignment := 0.30, supertrend := 0.25, rsi := 0.15,
    volume := 0.10, sentiment := 0.20 }

/-- The fatal-at-startup error class of the spec's taxonomy (§7). -/
inductive ConfigError where
  | ConfigurationError
deriving Repr, DecidableEq

/-- The spec's tolerance on the weight sum: 1e-9. -/
def weightTolerance : ℚ := 1 / 1000000000

/-- Modelled from the spec: configuration load (the backend's configuration
loading code is absent from the repository snapshot).  Loading validates that
the five weights sum to 1.0 within 1e-9 and raises ConfigurationError
otherwise. -/
def loadWeights (w : Weights) : Except ConfigError Weights :=
  if |w.total - 1| ≤ weightTolerance then Except.ok w
  else Except.error ConfigError.ConfigurationError

/-- Modelled from the spec: the daily batch run loads the configuration once,
before any per-stock computation, and threads it through every component
call; a load failure aborts the run before any stock is analyzed. -/
def runBatch {α β : Type} (w : Weights) (stocks : List α)
    (analyze : Weights → α → β) : Except ConfigError (List β) := do
  let cfg ← loadWeights w
  pure (stocks.map (analyze cfg))

end Config

/-! ## Indicator Engine: RSI(14) (§4.1 of the spec) -/

namespace Indicators

/-- Day-over-day close changes: `close_t − close_{t−1}`. -/
def diffs (closes : List ℚ) : List ℚ :=
  List.zipWith (fun b a => b - a) closes.tail closes

/-- Per-day gains: `max(change, 0)`, in kernel-evaluable if-form. -/
def gains (closes : List ℚ) : List ℚ :=
  (diffs closes).map (fun d => if 0 ≤ d then d else 0)

/-- Per-day losses: `max(−change, 0)`, in kernel-evaluable if-form. -/
def losses (closes : List ℚ) : List ℚ :=
  (diffs closes).map (fun d => if d ≤ 0 then -d else 0)

/-- Modelled from the spec: Wilder smoothing over an n-bar window (the
Technical Indicators Service, `app/services/indicators.py`, is absent from
the repository snapshot).  Seed with the arithmetic mean of the first n
values; thereafter `avg_t = (avg_{t−1}·(n−1) + x_t) / n`.  `none` when fewer
than n values exist. -/
def wilderSmooth (n : Nat) (xs : List ℚ) : Option ℚ :=
  if n ≤ xs.length ∧ 0 < n then
    some ((xs.drop n).foldl
      (fun a x => (a * ((n : ℚ) - 1) + x) / (n : ℚ))
      ((xs.take n).sum / (n : ℚ)))
  else none

/-- Wilder-smoothed average gain over a 14-bar window. -/
def avgGain14 (closes : List ℚ) : Option ℚ := wilderSmooth 14 (gains closes)

/-- Wilder-smoothed average loss over a 14-bar window. -/
def avgLoss14 (closes : List ℚ) : Option ℚ := wilderSmooth 14 (losses closes)

/-- Modelled from the spec: RSI(14) = 100 − 100/(1+RS) with
RS = avg_gain/avg_loss, and RSI = 100 when avg_loss = 0.  `none` when the
window is not satisfied. -/
def rsi14 (closes : List ℚ) : Option ℚ :=
  match avgGain14 closes, avgLoss14 closes with
  | some g, some l => some (if l = 0 then 100 else 100 - 100 / (1 + g / l))
  | _, _ => none

end Indicators

/-! ## Signal Generator (§4.3 of the spec) -/

/-- SuperTrend trend state of the latest snapshot.  The spec calls the two
states UP and DOWN; the repository's schema comment
(`technical_indicators.supertrend_direction -- 'BUY' or 'SELL'`) and the
frontend chip rendering label the same two states 'BUY' (uptrend) and 'SELL'
(downtrend). -/
inductive TrendDirection where
  | up
  | down
deriving Repr, DecidableEq

/-- If-based rational minimum (kernel-evaluable form of `min`). -/
def minQ (a b : ℚ) : ℚ := if a ≤ b then a else b

/-- If-based rational maximum (kernel-evaluable form of `max`). -/
def maxQ (a b : ℚ) : ℚ := if a ≤ b then b else a

/-- If-based rational absolute value (kernel-evaluable form of `|·|`). -/
def absQ (a : ℚ) : ℚ := if a < 0 then -a else a

/-! ## Indicator Engine: full snapshot and partial availability (§4.1) -/

namespace Indicators

/-- Modelled from the spec: SMA(n) — arithmetic mean of the last n closes;
unavailable (`none`, the SQL NULL of the nullable `technical_indicators`
columns) until n bars exist. -/
def sma (n : Nat) (closes : List ℚ) : Option ℚ :=
  if n ≤ closes.length ∧ 0 < n then
    some ((closes.drop (closes.length - n)).sum / (n : ℚ))
  else none

/-- Modelled from the spec: EMA(n) — seeded with SMA(n) on the n-th bar,
then EMA_t = close_t·k + EMA_{t−1}·(1−k) with k = 2/(n+1); unavailable until
n bars exist. -/
def ema (n : Nat) (closes : List ℚ) : Option ℚ :=
  if n ≤ closes.length ∧ 0 < n then
    some ((closes.drop n).foldl
      (fun e c => c * (2 / ((n : ℚ) + 1)) + e * (1 - 2 / ((n : ℚ) + 1)))
      ((closes.take n).sum / (n : ℚ)))
  else none

/-- Modelled from the spec: True Range = max(high−low, |high−prev_close|,
|low−prev_close|); the first bar has no prev_close and uses high−low. -/
def trueRanges (bars : List PriceBar) : List ℚ :=
  match bars with
  | [] => []
  | b :: rest =>
      (b.high - b.low) ::
        List.zipWith (fun prev cur =>
            maxQ (cur.high - cur.low)
              (maxQ (absQ (cur.high - prev.close)) (absQ (cur.low - prev.close))))
          (b :: rest) rest

/-- Modelled from the spec: ATR(n) — Wilder-smoothed average of True Range. -/
def atr (n : Nat) (bars : List PriceBar) : Option ℚ :=
  wilderSmooth n (trueRanges bars)

/-- volume_avg_20: arithmetic mean of the last 20 volumes. -/
def volumeAvg20 (bars : List PriceBar) : Option ℚ :=
  sma 20 (bars.map PriceBar.volume)

/-- volume_ratio = current volume / volume_avg_20; unavailable when the
average is 0 or no bars exist. -/
def volumeRatio (bars : List PriceBar) : Option ℚ :=
  match volumeAvg20 bars, bars.getLast? with
  | some avg, some b => if avg = 0 then none else some (b.volume / avg)
  | _, _ => none

/-- The `technical_indicators` row for the latest day (`IndicatorSnapshot` of
the spec): each field is `none` ("unavailable", the nullable SQL column) when
its trailing window is not satisfied.  The SuperTrend recurrence is modelled
separately by `SuperTrend.stStep` / `SuperTrend.stValue`. -/
structure IndicatorSnapshot where
  sma_20 : Option ℚ
  sma_50 : Option ℚ
  sma_100 : Option ℚ
  ema_20 : Option ℚ
  ema_50 : Option ℚ
  rsi_14 : Option ℚ
  atr_14 : Option ℚ
  volume_avg_20 : Option ℚ
  volume_ratio : Option ℚ
deriving Repr, DecidableEq

/-- Modelled from the spec: the Indicator Engine's per-day output — every
indicator whose window is satisfied is computed; an unsatisfied window makes
only that field unavailable. -/
def computeSnapshot (bars : List PriceBar) : IndicatorSnapshot :=
  let closes := bars.map PriceBar.close
  { sma_20 := sma 20 closes
    sma_50 := sma 50 closes
    sma_100 := sma 100 closes
    ema_20 := ema 20 closes
    ema_50 := ema 50 closes
    rsi_14 := rsi14 closes
    atr_14 := atr 14 bars
    volume_avg_20 := volumeAvg20 bars
    volume_ratio := volumeRatio bars }

end Indicators

namespace Generator

/-- Generator configuration (`system_config` defaults: score_threshold_buy 70,
score_threshold_sell 30, risk_reward_ratio_min 1.5, signal_expiry_days 5). -/
structure GenConfig where
  buy_threshold : ℚ
  sell_threshold : ℚ
  min_rr : ℚ
  expiry_days : Nat
deriving Repr, DecidableEq

/-- The `system_config` default thresholds. -/
def defaultConfig : GenConfig :=
  { buy_threshold := 70, sell_threshold := 30, min_rr := 1.5, expiry_days := 5 }

/-- The generator's per-stock input: the day's total score, current close,
previous-day high, the latest indicator snapshot values it consumes, the
trailing-10-bar extremes, the nearest identified resistance/support level when
one is known, and the lifecycle-state answer to "does this stock already have
an ACTIVE signal?". -/
structure GenInput where
  total_score : ℚ
  close : ℚ
  prev_high : ℚ
  ema_20 : ℚ
  atr_14 : ℚ
  supertrend_value : ℚ
  supertrend_direction : TrendDirection
  lowest_low_10 : ℚ
  highest_high_10 : ℚ
  level : Option ℚ
  has_active : Bool
deriving Repr, DecidableEq

/-- Modelled from the spec: §4.3 decision rule.  BUY when total_score ≥
buy_threshold and no ACTIVE signal exists for the stock; SELL symmetrically at
sell_threshold; otherwise no signal. -/
def chooseSignalType (cfg : GenConfig) (inp : GenInput) : Option SignalType :=
  if inp.has_active then none
  else if cfg.buy_threshold ≤ inp.total_score then some SignalType.BUY
  else if inp.total_score ≤ cfg.sell_threshold then some SignalType.SELL
  else none

/-- Modelled from the spec: §4.3 signal_strength — STRONG from 85, MODERATE
from 75, WEAK from the buy threshold, mirrored for SELL against the sell
threshold. -/
def strengthFor (t : SignalType) (cfg : GenConfig) (total : ℚ) : SignalStrength :=
  match t with
  | SignalType.BUY =>
      if 85 ≤ total then SignalStrength.STRONG
      else if 75 ≤ total then SignalStrength.MODERATE
      else SignalStrength.WEAK
  | SignalType.SELL =>
      if total ≤ 100 - 85 then SignalStrength.STRONG
      else if total ≤ 100 - 75 then SignalStrength.MODERATE
      else SignalStrength.WEAK

/-- Modelled from the spec: §4.3 entry rule — previous-day high if close has
broken above it, else ema_20; whichever is lower for BUY (conservative entry),
higher for SELL. -/
def entryFor (t : SignalType) (inp : GenInput) : ℚ :=
  match t with
  | SignalType.BUY =>
      if inp.prev_high < inp.close then minQ inp.prev_high inp.ema_20
      else inp.ema_20
  | SignalType.SELL =>
      if inp.prev_high < inp.close then maxQ inp.prev_high inp.ema_20
      else inp.ema_20

/-- Modelled from the spec: §4.3 stop rule — supertrend_value when the
SuperTrend direction is consistent with the signal direction, else the lowest
low (BUY) / highest high (SELL) over the trailing 10 bars. -/
def stopLossFor (t : SignalType) (inp : GenInput) : ℚ :=
  match t with
  | SignalType.BUY =>
      if inp.supertrend_direction = TrendDirection.up then inp.supertrend_value
      else inp.lowest_low_10
  | SignalType.SELL =>
      if inp.supertrend_direction = TrendDirection.down then inp.supertrend_value
      else inp.highest_high_10

/-- Modelled from the spec: §4.3 — target_1 sits 1.5 risk units from entry, in
the signal's direction. -/
def target1For (t : SignalType) (entry risk : ℚ) : ℚ :=
  match t with
  | SignalType.BUY => entry + 1.5 * risk
  | SignalType.SELL => entry - 1.5 * risk

/-- Modelled from the spec: §4.3 — target_2 is entry ± 2.0 × atr_14, or the
nearest identified resistance/support level when one is known, whichever is
farther from entry. -/
def target2For (t : SignalType) (entry atr : ℚ) (level : Option ℚ) : ℚ :=
  let atrTarget :=
    match t with
    | SignalType.BUY => entry + 2 * atr
    | SignalType.SELL => entry - 2 * atr
  match level with
  | some lvl =>
      match t with
      | SignalType.BUY => maxQ atrTarget lvl
      | SignalType.SELL => minQ atrTarget lvl
  | none => atrTarget

/-- Modelled from the spec: §4.3 Signal Generator (its code,
`app/services/scoring.py`, is absent from the repository snapshot).
Emits at most one signal: the decision rule picks a direction, the price
levels are derived as specified, risk_amount = |entry − stop_loss|,
reward_ratio_k = |target_k − entry| / risk_amount, and the candidate is
rejected — not emitted — when reward_ratio_1 is below the configured
minimum. -/
def generateSignal (cfg : GenConfig) (inp : GenInput) (stock : Nat)
    (today : Nat) : Option Signal :=
  match chooseSignalType cfg inp with
  | none => none
  | some t =>
      let entry := entryFor t inp
      let stop := stopLossFor t inp
      let risk := absQ (entry - stop)
      let t1 := target1For t entry risk
      let t2 := target2For t entry inp.atr_14 inp.level
      let rr1 := absQ (t1 - entry) / risk
      let rr2 := absQ (t2 - entry) / risk
      if rr1 < cfg.min_rr then none
      else
        some { stock_id := stock, signal_date := today, signal_type := t,
               signal_strength := strengthFor t cfg inp.total_score,
               entry_price := entry, target_1 := t1, target_2 := t2,
               stop_loss := stop, risk_amount := risk,
               reward_ratio_1 := rr1, reward_ratio_2 := rr2,
               status := SignalStatus.ACTIVE,
               expiry_date := today + cfg.expiry_days }

end Generator

/-! ## SuperTrend direction (§4.1 of the spec; schema line 64; StockDetail chip) -/

namespace SuperTrend

/-- The value set of `technical_indicators.supertrend_direction` declared by
the schema: `supertrend_direction VARCHAR(10), -- 'BUY' or 'SELL'`. -/
def supertrendDirectionValues : List String := ["BUY", "SELL"]

/-- From `StockDetail.js` (Technical Indicators tab): the chip colour for a
supertrend_direction value,
`color={indicator.supertrend_direction === 'BUY' ? 'success' : 'error'}`. -/
def getDirectionChipColor (direction : String) : String :=
  if direction = "BUY" then "success" else "error"

/-- The string stored for a trend state, per the schema comment and the
frontend: uptrend 'BUY', downtrend 'SELL'. -/
def dirCode : TrendDirection → String
  | TrendDirection.up => "BUY"
  | TrendDirection.down => "SELL"

/-- SuperTrend recurrence state carried day to day: previous final upper and
lower bands, previous direction, previous close. -/
structure STState where
  upper : ℚ
  lower : ℚ
  direction : TrendDirection
  prevClose : ℚ
deriving Repr, DecidableEq

/-- Modelled from the spec: the final upper band only decreases or carries
forward while price stays below it; it resets to the basic band
`(high+low)/2 + mult·ATR` otherwise. -/
def finalUpper (mult : ℚ) (s : STState) (b : PriceBar) (atr : ℚ) : ℚ :=
  let basicUpper := (b.high + b.low) / 2 + mult * atr
  if basicUpper < s.upper ∨ s.upper < s.prevClose then basicUpper else s.upper

/-- Modelled from the spec: the final lower band only increases or carries
forward while price stays above it; it resets to the basic band
`(high+low)/2 − mult·ATR` otherwise. -/
def finalLower (mult : ℚ) (s : STState) (b : PriceBar) (atr : ℚ) : ℚ :=
  let basicLower := (b.high + b.low) / 2 - mult * atr
  if s.lower < basicLower ∨ s.prevClose < s.lower then basicLower else s.lower

/-- The close crosses below the current upper band: it was not below the band
on the previous day and the new close is strictly below it. -/
def crossedBelowUpper (mult : ℚ) (s : STState) (b : PriceBar) (atr : ℚ) : Prop :=
  s.upper ≤ s.prevClose ∧ b.close < finalUpper mult s b atr

/-- The close crosses above the current lower band: it was not above the band
on the previous day and the new close is strictly above it. -/
def crossedAboveLower (mult : ℚ) (s : STState) (b : PriceBar) (atr : ℚ) : Prop :=
  s.prevClose ≤ s.lower ∧ finalLower mult s b atr < b.close

instance (mult : ℚ) (s : STState) (b : PriceBar) (atr : ℚ) :
    Decidable (crossedBelowUpper mult s b atr) := by
  unfold crossedBelowUpper
  infer_instance

instance (mult : ℚ) (s : STState) (b : PriceBar) (atr : ℚ) :
    Decidable (crossedAboveLower mult s b atr) := by
  unfold crossedAboveLower
  infer_instance

/-- Modelled from the spec: one day of the SuperTrend fold — compute the final
bands, flip the direction to downtrend exactly on a cross below the current
upper band and to uptrend exactly on a cross above the current lower band,
otherwise carry the direction forward. -/
def stStep (mult : ℚ) (s : STState) (b : PriceBar) (atr : ℚ) : STState :=
  let upper := finalUpper mult s b atr
  let lower := finalLower mult s b atr
  let direction :=
    if crossedBelowUpper mult s b atr then TrendDirection.down
    else if crossedAboveLower mult s b atr then TrendDirection.up
    else s.direction
  { upper := upper, lower := lower, direction := direction, prevClose := b.close }

/-- Modelled from the spec: supertrend_value is the active band of the current
direction — the lower band in an uptrend, the upper band in a downtrend. -/
def stValue (s : STState) : ℚ :=
  match s.direction with
  | TrendDirection.up => s.lower
  | TrendDirection.down => s.upper

end SuperTrend

/-! ## Frontend: data-fetch handlers and chart pairing
(`Dashboard.js`, `StockDetail.js`) -/

namespace Frontend

/-- Component state of `Dashboard.js`: the useState slots topStocks (initially
`[]`), marketSentiment (initially null), loading, error. -/
structure DashboardState (α β : Type) where
  topStocks : α
  marketSentiment : Option β
  loading : Bool
  error : Option String

/-- From `Dashboard.js` `fetchDashboardData`: `setLoading(true)`; await the
top-stocks request and store its data; await the market-sentiment request and
store its data; any rejection jumps to the catch block, which sets the error
message; the finally block sets `loading` to false on every path.  Each
awaited request is an `Except`: `ok` with its payload or `error` with the
rejection. -/
def fetchDashboardData {α β : Type} (r1 : Except String α)
    (r2 : Except String β) (s : DashboardState α β) : DashboardState α β :=
  let s0 := { s with loading := true }
  let s1 :=
    match r1 with
    | Except.error _ => { s0 with error := some "Failed to fetch dashboard data" }
    | Except.ok v1 =>
        let sa := { s0 with topStocks := v1 }
        match r2 with
        | Except.error _ =>
            { sa with error := some "Failed to fetch dashboard data" }
        | Except.ok v2 => { sa with marketSentiment := some v2 }
  { s1 with loading := false }

/-- Component state of `StockDetail.js`: the useState slots stockData
(initially null), priceData, indicatorData, signals, news, loading, error. -/
structure StockDetailState (A B C D E : Type) where
  stockData : Option A
  priceData : B
  indicatorData : C
  signals : D
  news : E
  loading : Bool
  error : Option String

/-- From `StockDetail.js` `fetchStockData`: `setLoading(true)`; five awaited
requests (stock detail, prices, indicators, signals, news), each storing its
data before the next runs; a rejection jumps to the catch block, which sets
the error message and skips the remaining requests; the finally block sets
`loading` to false on every path. -/
def fetchStockData {A B C D E : Type} (r1 : Except String A)
    (r2 : Except String B) (r3 : Except String C) (r4 : Except String D)
    (r5 : Except String E) (s : StockDetailState A B C D E) :
    StockDetailState A B C D E :=
  let s0 := { s with loading := true }
  let s1 :=
    match r1 with
    | Except.error _ => { s0 with error := some "Failed to fetch stock data" }
    | Except.ok v1 =>
        let sa := { s0 with stockData := some v1 }
        match r2 with
        | Except.error _ => { sa with error := some "Failed to fetch stock data" }
        | Except.ok v2 =>
            let sb := { sa with priceData := v2 }
            match r3 with
            | Except.error _ =>
                { sb with error := some "Failed to fetch stock data" }
            | Except.ok v3 =>
                let sc := { sb with indicatorData := v3 }
                match r4 with
                | Except.error _ =>
                    { sc with error := some "Failed to fetch stock data" }
                | Except.ok v4 =>
                    let sd := { sc with signals := v4 }
                    match r5 with
                    | Except.error _ =>
                        { sd with error := some "Failed to fetch stock data" }
                    | Except.ok v5 => { sd with news := v5 }
  { s1 with loading := false }

end Frontend

namespace Frontend

/-- A row of the prices API response consumed by `StockDetail.js`. -/
structure PriceRow where
  date : String
  open_ : ℚ
  high : ℚ
  low : ℚ
  close : ℚ
  volume : ℚ

/-- A row of the indicators API response; indicator columns are nullable. -/
structure IndicatorRow where
  date : String
  sma_20 : Option ℚ
  sma_50 : Option ℚ
  ema_20 : Option ℚ
  rsi_14 : Option ℚ

/-- One entry of the combined chart series; `none` models a JS undefined
field. -/
structure ChartPoint where
  date : String
  open_ : ℚ
  high : ℚ
  low : ℚ
  close : ℚ
  volume : ℚ
  sma_20 : Option ℚ
  sma_50 : Option ℚ
  ema_20 : Option ℚ
  rsi_14 : Option ℚ

/-- From `StockDetail.js` lines 124-139:
`priceData.map((price, index) => { const indicator = indicatorData[index] || {};
return { date: price.date, ..., sma_20: indicator.sma_20, ... }; })` —
price rows and indicator rows are paired purely by array position. -/
def chartData (priceData : List PriceRow) (indicatorData : List IndicatorRow) :
    List ChartPoint :=
  priceData.enum.map (fun p =>
    let price := p.2
    let indicator := indicatorData[p.1]?
    { date := price.date, open_ := price.open_, high := price.high,
      low := price.low, close := price.close, volume := price.volume,
      sma_20 := match indicator with
        | some ind => ind.sma_20
        | none => none,
      sma_50 := match indicator with
        | some ind => ind.sma_50
        | none => none,
      ema_20 := match indicator with
        | some ind => ind.ema_20
        | none => none,
      rsi_14 := match indicator with
        | some ind => ind.rsi_14
        | none => none })

end Frontend

/-! ## Theorems -/

theorem minQ_eq_min (a b : ℚ) : minQ a b = min a b := by
  unfold minQ
  rcases le_total a b with h | h
  · rw [if_pos h, min_eq_left h]
  · by_cases h2 : a ≤ b
    · rw [if_pos h2, min_eq_left h2]
    · rw [if_neg h2, min_eq_right h]

theorem maxQ_eq_max (a b : ℚ) : maxQ a b = max a b := by
  unfold maxQ
  rcases le_total a b with h | h
  · rw [if_pos h, max_eq_right h]
  · by_cases h2 : a ≤ b
    · rw [if_pos h2, max_eq_right h2]
    · rw [if_neg h2, max_eq_left h]

theorem absQ_eq_abs (a : ℚ) : absQ a = |a| := by
  unfold absQ
  by_cases h : a < 0
  · rw [if_pos h, abs_of_neg h]
  · rw [if_neg h, abs_of_nonneg (le_of_not_lt h)]

/-- C1: For every ACTIVE signal and every daily price bar, the lifecycle
tracker checks the stop-loss first: whenever the bar breaches the stop-loss
(low ≤ stop_loss for BUY, high ≥ stop_loss for SELL), the evaluation resolves
to STOPPED_OUT — even when the same bar also reaches target_2 or target_1;
target levels are only consulted when the stop-loss is not breached. -/
theorem C1_stop_loss_priority (sig : Signal) (bar : PriceBar) (today : Nat)
    (hact : sig.status = SignalStatus.ACTIVE)
    (hbreach : stopBreached sig bar) :
    Lifecycle.evaluateSignal sig bar today = SignalStatus.STOPPED_OUT := by
  unfold Lifecycle.evaluateSignal
  rw [hact]
  simp only [ne_eq, not_true_eq_false, if_false]
  unfold stopBreached at hbreach
  cases htype : sig.signal_type
  · rw [htype] at hbreach
    have hb : bar.low ≤ sig.stop_loss := hbreach
    simp [hb]
  · rw [htype] at hbreach
    have hb : sig.stop_loss ≤ bar.high := hbreach
    simp [hb]

/-- The spec's scenario: a BUY signal with entry 100, stop_loss 95, target_2
110, evaluated against a bar with low 94 and high 108, resolves to
STOPPED_OUT, not HIT_TARGET_2. -/
theorem C1_stop_loss_priority_witness :
    Lifecycle.evaluateSignal
      { stock_id := 1, signal_date := 10, signal_type := SignalType.BUY,
        signal_strength := SignalStrength.MODERATE, entry_price := 100, target_1 := 107.5, target_2 := 110,
        stop_loss := 95, risk_amount := 5, reward_ratio_1 := 1.5,
        reward_ratio_2 := 2, status := SignalStatus.ACTIVE, expiry_date := 15 }
      { date := 11, open_ := 101, high := 108, low := 94, close := 99,
        volume := 100000 }
      11 = SignalStatus.STOPPED_OUT :=
  C1_stop_loss_priority _ _ 11 rfl (by decide)

namespace ActiveUniqueness

theorem count_eq_zero_of_not_hasActive (sigs : List Signal) (stock : Nat)
    (h : hasActiveFor sigs stock = false) : countActiveFor sigs stock = 0 := by
  unfold hasActiveFor at h
  unfold countActiveFor
  simp only [List.any_eq_false] at h
  have hnil : sigs.filter (activeFor stock) = [] :=
    List.filter_eq_nil_iff.mpr h
  simp [hnil]

theorem evaluate_active_of_active (sig : Signal) (bar : PriceBar) (today : Nat)
    (h : Lifecycle.evaluateSignal sig bar today = SignalStatus.ACTIVE) :
    sig.status = SignalStatus.ACTIVE := by
  by_cases hst : sig.status = SignalStatus.ACTIVE
  · exact hst
  · exfalso
    unfold Lifecycle.evaluateSignal at h
    rw [if_pos hst] at h
    exact hst h

theorem length_filter_map_le (p q : Signal → Bool) (f : Signal → Signal)
    (hf : ∀ x, p (f x) = true → q x = true) (l : List Signal) :
    ((l.map f).filter p).length ≤ (l.filter q).length := by
  induction l with
  | nil => simp
  | cons x xs ih =>
      simp only [List.map_cons, List.filter_cons]
      by_cases h1 : p (f x) = true
      · have h2 := hf x h1
        simp only [h1, h2, if_true, List.length_cons]
        omega
      · have h1' : p (f x) = false := eq_false_of_ne_true h1
        by_cases h2 : q x = true
        · simp only [h1', h2, Bool.false_eq_true, if_false, if_true,
            List.length_cons]
          omega
        · have h2' : q x = false := eq_false_of_ne_true h2
          simp only [h1', h2', Bool.false_eq_true, if_false]
          exact ih

end ActiveUniqueness

open ActiveUniqueness in
/-- C2: the invariant "at most one ACTIVE signal per stock" is preserved both
by a signal-generation step (the generator queries lifecycle state and emits
nothing for a stock that already has an ACTIVE signal outstanding) and by a
daily lifecycle pass (which only moves statuses out of ACTIVE, never into
it). -/
theorem C2_at_most_one_active_preserved (sigs : List Signal) (stock : Nat)
    (cand : Option Signal) (bars : Nat → PriceBar) (today : Nat)
    (hinv : atMostOneActive sigs) :
    atMostOneActive (generateStep sigs stock cand) ∧
    atMostOneActive (lifecycleStep sigs bars today) := by
  constructor
  · intro s
    unfold generateStep
    by_cases hact : hasActiveFor sigs stock = true
    · simp only [hact, if_true]
      exact hinv s
    · have hact' : hasActiveFor sigs stock = false := eq_false_of_ne_true hact
      simp only [hact', Bool.false_eq_true, if_false]
      match cand with
      | none => exact hinv s
      | some sig =>
          unfold countActiveFor
          rw [List.filter_append, List.length_append]
          by_cases hs : s = stock
          · subst hs
            have h0 := count_eq_zero_of_not_hasActive sigs s hact'
            unfold countActiveFor at h0
            rw [h0]
            simp [List.filter_cons, activeFor]
          · have hnew : activeFor s
                { sig with stock_id := stock, status := SignalStatus.ACTIVE }
                = false := by
              unfold activeFor
              have hne : stock ≠ s := fun h => hs h.symm
              simp [hne]
            simp only [List.filter_cons, hnew, Bool.false_eq_true, if_false,
              List.filter_nil, List.length_nil, Nat.add_zero]
            exact hinv s
  · intro s
    unfold lifecycleStep countActiveFor
    have := length_filter_map_le (activeFor s) (activeFor s)
      (fun sig =>
        { sig with status := Lifecycle.evaluateSignal sig (bars sig.stock_id) today })
      (fun x hx => by
        unfold activeFor at hx ⊢
        simp only [Bool.and_eq_true, decide_eq_true_eq] at hx
        have hstock : x.stock_id = s := hx.1
        have hst := evaluate_active_of_active x (bars x.stock_id) today hx.2
        simp [hstock, hst])
      sigs
    exact le_trans this (hinv s)

open ActiveUniqueness in
/-- Concrete instantiation of C2: a state holding one ACTIVE signal for stock 1
keeps at most one ACTIVE signal per stock after a generation step for stock 1
(which is suppressed) and after a lifecycle pass. -/
theorem C2_at_most_one_active_preserved_witness :
    atMostOneActive
      (generateStep
        [{ stock_id := 1, signal_date := 10, signal_type := SignalType.BUY,
           signal_strength := SignalStrength.MODERATE, entry_price := 100, target_1 := 107.5, target_2 := 110,
           stop_loss := 95, risk_amount := 5, reward_ratio_1 := 1.5,
           reward_ratio_2 := 2, status := SignalStatus.ACTIVE,
           expiry_date := 15 }]
        1
        (some { stock_id := 1, signal_date := 11, signal_type := SignalType.BUY,
                signal_strength := SignalStrength.WEAK, entry_price := 101, target_1 := 108, target_2 := 111,
                stop_loss := 96, risk_amount := 5, reward_ratio_1 := 1.4,
                reward_ratio_2 := 2, status := SignalStatus.ACTIVE,
                expiry_date := 16 })) ∧
    atMostOneActive
      (lifecycleStep
        [{ stock_id := 1, signal_date := 10, signal_type := SignalType.BUY,
           signal_strength := SignalStrength.MODERATE, entry_price := 100, target_1 := 107.5, target_2 := 110,
           stop_loss := 95, risk_amount := 5, reward_ratio_1 := 1.5,
           reward_ratio_2 := 2, status := SignalStatus.ACTIVE,
           expiry_date := 15 }]
        (fun _ => { date := 11, open_ := 101, high := 108, low := 94,
                    close := 99, volume := 100000 })
        11) :=
  C2_at_most_one_active_preserved _ 1 _ _ 11
    (fun s => le_trans (List.length_filter_le _ _) (by simp))

open Config in
/-- C6: every weight configuration accepted at load sums to 1.0 within 1e-9,
and a configuration whose weights do not sum to 1.0 (beyond the tolerance)
raises ConfigurationError at load time: the batch aborts with that error and
no per-stock computation runs. -/
theorem C6_weight_sum_invariant {α β : Type} (w : Weights) (stocks : List α)
    (analyze : Weights → α → β) :
    (∀ cfg, loadWeights w = Except.ok cfg → |cfg.total - 1| ≤ weightTolerance) ∧
    (¬ |w.total - 1| ≤ weightTolerance →
      runBatch w stocks analyze = Except.error ConfigError.ConfigurationError) := by
  constructor
  · intro cfg hcfg
    unfold loadWeights at hcfg
    by_cases h : |w.total - 1| ≤ weightTolerance
    · rw [if_pos h] at hcfg
      cases hcfg
      exact h
    · rw [if_neg h] at hcfg
      cases hcfg
  · intro h
    unfold runBatch loadWeights
    rw [if_neg h]
    rfl

open Config in
/-- Concrete instantiation of C6: the default weights
(0.30 + 0.25 + 0.15 + 0.10 + 0.20) load successfully and their sum is within
the tolerance; weights summing to 1.1 abort the batch with
ConfigurationError before the single stock is analyzed. -/
theorem C6_weight_sum_invariant_witness :
    |(defaultWeights).total - 1| ≤ weightTolerance ∧
    runBatch { ma_alignment := 0.40, supertrend := 0.25, rsi := 0.15,
               volume := 0.10, sentiment := 0.20 }
      [(0 : Nat)] (fun _ s => s)
      = Except.error ConfigError.ConfigurationError :=
  ⟨(C6_weight_sum_invariant defaultWeights ([] : List Nat)
      (fun _ s => s)).1 defaultWeights
      (by norm_num [loadWeights, defaultWeights, Weights.total, weightTolerance]),
   (C6_weight_sum_invariant _ [(0 : Nat)] (fun _ s => s)).2
      (by norm_num [Weights.total, weightTolerance, abs_le])⟩

namespace Indicators

theorem foldl_wilder_nonneg (n : Nat) (hn : 1 ≤ n) (l : List ℚ) :
    ∀ a : ℚ, 0 ≤ a → (∀ x ∈ l, 0 ≤ x) →
      0 ≤ l.foldl (fun a x => (a * ((n : ℚ) - 1) + x) / (n : ℚ)) a := by
  induction l with
  | nil => intro a ha _; simpa using ha
  | cons y ys ih =>
      intro a ha hl
      simp only [List.foldl_cons]
      apply ih
      · apply div_nonneg
        · have h1 : (1 : ℚ) ≤ (n : ℚ) := by exact_mod_cast hn
          have : 0 ≤ a * ((n : ℚ) - 1) :=
            mul_nonneg ha (by linarith)
          have hy : 0 ≤ y := hl y (List.mem_cons_self y ys)
          linarith
        · positivity
      · intro x hx
        exact hl x (List.mem_cons_of_mem y hx)

theorem wilderSmooth_nonneg (n : Nat) (xs : List ℚ) (a : ℚ)
    (hx : ∀ x ∈ xs, 0 ≤ x) (h : wilderSmooth n xs = some a) : 0 ≤ a := by
  unfold wilderSmooth at h
  by_cases hc : n ≤ xs.length ∧ 0 < n
  · rw [if_pos hc] at h
    cases h
    apply foldl_wilder_nonneg n hc.2
    · apply div_nonneg
      · apply List.sum_nonneg
        intro x hmem
        exact hx x (List.mem_of_mem_take hmem)
      · positivity
    · intro x hmem
      exact hx x (List.mem_of_mem_drop hmem)
  · rw [if_neg hc] at h
    cases h

theorem losses_nonneg (closes : List ℚ) : ∀ x ∈ losses closes, 0 ≤ x := by
  intro x hx
  unfold losses at hx
  obtain ⟨d, _, rfl⟩ := List.mem_map.mp hx
  by_cases h : d ≤ 0
  · rw [if_pos h]
    linarith
  · rw [if_neg h]

theorem gains_nonneg (closes : List ℚ) : ∀ x ∈ gains closes, 0 ≤ x := by
  intro x hx
  unfold gains at hx
  obtain ⟨d, _, rfl⟩ := List.mem_map.mp hx
  by_cases h : 0 ≤ d
  · rw [if_pos h]
    exact h
  · rw [if_neg h]

theorem diffs_length (closes : List ℚ) :
    (diffs closes).length = closes.length - 1 := by
  unfold diffs
  rw [List.length_zipWith, List.length_tail]
  omega

theorem trueRanges_length (bars : List PriceBar) (h : bars ≠ []) :
    (trueRanges bars).length = bars.length := by
  match bars with
  | [] => exact absurd rfl h
  | b :: rest =>
      unfold trueRanges
      rw [List.length_cons, List.length_zipWith, List.length_cons]
      omega

theorem sma_isSome (n : Nat) (closes : List ℚ) (h : n ≤ closes.length)
    (h0 : 0 < n) : (sma n closes).isSome := by
  unfold sma
  rw [if_pos ⟨h, h0⟩]
  rfl

theorem ema_isSome (n : Nat) (closes : List ℚ) (h : n ≤ closes.length)
    (h0 : 0 < n) : (ema n closes).isSome := by
  unfold ema
  rw [if_pos ⟨h, h0⟩]
  rfl

theorem wilderSmooth_isSome (n : Nat) (xs : List ℚ) (h : n ≤ xs.length)
    (h0 : 0 < n) : (wilderSmooth n xs).isSome := by
  unfold wilderSmooth
  rw [if_pos ⟨h, h0⟩]
  rfl

theorem rsi14_isSome (closes : List ℚ) (h : 15 ≤ closes.length) :
    (rsi14 closes).isSome := by
  unfold rsi14
  have hg : 14 ≤ (gains closes).length := by
    unfold gains
    rw [List.length_map, diffs_length]
    omega
  have hl : 14 ≤ (losses closes).length := by
    unfold losses
    rw [List.length_map, diffs_length]
    omega
  have h1 := wilderSmooth_isSome 14 (gains closes) hg (by norm_num)
  have h2 := wilderSmooth_isSome 14 (losses closes) hl (by norm_num)
  unfold avgGain14 avgLoss14
  cases hg' : wilderSmooth 14 (gains closes) with
  | none => rw [hg'] at h1; cases h1
  | some g =>
      cases hl' : wilderSmooth 14 (losses closes) with
      | none => rw [hl'] at h2; cases h2
      | some l => rfl

theorem sma_pos (n : Nat) (xs : List ℚ) (a : ℚ) (hx : ∀ x ∈ xs, 0 < x)
    (h : sma n xs = some a) (h0 : 0 < n) : 0 < a := by
  unfold sma at h
  by_cases hc : n ≤ xs.length ∧ 0 < n
  · rw [if_pos hc] at h
    cases h
    apply div_pos
    · apply List.sum_pos
      · intro x hmem
        exact hx x (List.mem_of_mem_drop hmem)
      · have hlen : (xs.drop (xs.length - n)).length = n := by
          rw [List.length_drop]
          omega
        intro hnil
        rw [hnil] at hlen
        simp at hlen
        omega
    · exact_mod_cast h0
  · rw [if_neg hc] at h
    cases h

end Indicators

open Indicators in
/-- C7: whenever RSI(14) is defined (the 14-bar window is satisfied), its
value lies in [0, 100], and it equals 100 exactly when the Wilder-smoothed
average loss over the window is 0. -/
theorem C7_rsi_bounds (closes : List ℚ) (r : ℚ)
    (h : rsi14 closes = some r) :
    0 ≤ r ∧ r ≤ 100 ∧ (r = 100 ↔ avgLoss14 closes = some 0) := by
  unfold rsi14 at h
  cases hg : avgGain14 closes with
  | none => rw [hg] at h; cases h
  | some g =>
    cases hl : avgLoss14 closes with
    | none => rw [hg, hl] at h; cases h
    | some l =>
      rw [hg, hl] at h
      cases h
      have hgnn : 0 ≤ g := wilderSmooth_nonneg 14 _ g (gains_nonneg closes) hg
      have hlnn : 0 ≤ l := wilderSmooth_nonneg 14 _ l (losses_nonneg closes) hl
      by_cases hl0 : l = 0
      · subst hl0
        simp only [if_true, if_pos rfl]
        refine ⟨by norm_num, le_refl _, ?_⟩
        simp
      · have hlpos : 0 < l := lt_of_le_of_ne hlnn (Ne.symm hl0)
        have hrs : 0 ≤ g / l := div_nonneg hgnn (le_of_lt hlpos)
        have hden : (1 : ℚ) ≤ 1 + g / l := by linarith
        have hdenpos : (0 : ℚ) < 1 + g / l := by linarith
        have hfrac_pos : 0 < 100 / (1 + g / l) := by positivity
        have hfrac_le : 100 / (1 + g / l) ≤ 100 :=
          div_le_self (by norm_num) hden
        rw [if_neg hl0]
        refine ⟨by linarith, by linarith, ?_⟩
        constructor
        · intro habs
          exfalso
          linarith
        · intro habs
          exact absurd (Option.some.inj habs) hl0

open Indicators in
/-- Concrete instantiation of C7: 15 constant closes give a defined RSI(14)
of 100 (no losses), which is within [0, 100] and witnesses the
zero-average-loss equivalence. -/
theorem C7_rsi_bounds_witness :
    0 ≤ (100 : ℚ) ∧ (100 : ℚ) ≤ 100 ∧
      ((100 : ℚ) = 100 ↔ avgLoss14 (List.replicate 15 (100 : ℚ)) = some 0) :=
  C7_rsi_bounds (List.replicate 15 (100 : ℚ)) 100
    (by norm_num [rsi14, avgGain14, avgLoss14, wilderSmooth, gains, losses,
      diffs, List.replicate])

open Generator in
/-- C3: every signal the generator emits satisfies
reward_ratio_1 ≥ the configured minimum risk-reward ratio; a candidate whose
reward_ratio_1 falls below the minimum is not emitted at all. -/
theorem C3_reward_ratio_gate (cfg : GenConfig) (inp : GenInput)
    (stock today : Nat) (sig : Signal)
    (h : generateSignal cfg inp stock today = some sig) :
    cfg.min_rr ≤ sig.reward_ratio_1 := by
  unfold generateSignal at h
  cases hc : chooseSignalType cfg inp with
  | none => rw [hc] at h; cases h
  | some t =>
      rw [hc] at h
      simp only at h
      by_cases hrr :
          absQ (target1For t (entryFor t inp) (absQ (entryFor t inp - stopLossFor t inp))
            - entryFor t inp) / absQ (entryFor t inp - stopLossFor t inp) < cfg.min_rr
      · rw [if_pos hrr] at h
        cases h
      · rw [if_neg hrr] at h
        cases h
        exact le_of_not_lt hrr

open Generator in
/-- Concrete instantiation of C3: with the default configuration and a BUY
setup (score 80, breakout close 105 over previous high 100, ema_20 102,
SuperTrend UP at 95), a signal is emitted and its reward_ratio_1 (exactly 1.5)
meets the configured minimum 1.5. -/
theorem C3_reward_ratio_gate_witness :
    (defaultConfig).min_rr ≤ (1.5 : ℚ) :=
  C3_reward_ratio_gate defaultConfig
    { total_score := 80, close := 105, prev_high := 100, ema_20 := 102,
      atr_14 := 4, supertrend_value := 95,
      supertrend_direction := TrendDirection.up, lowest_low_10 := 94,
      highest_high_10 := 108, level := none, has_active := false }
    7 20
    { stock_id := 7, signal_date := 20, signal_type := SignalType.BUY,
      signal_strength := SignalStrength.MODERATE,
      entry_price := 100, target_1 := 107.5, target_2 := 108,
      stop_loss := 95, risk_amount := 5, reward_ratio_1 := 1.5,
      reward_ratio_2 := 1.6, status := SignalStatus.ACTIVE, expiry_date := 25 }
    (by norm_num [generateSignal, chooseSignalType, entryFor, stopLossFor,
      target1For, target2For, strengthFor, minQ, maxQ, absQ, defaultConfig])

open Generator in
/-- C4: for every emitted signal, risk_amount is the absolute difference
between entry and stop, and each reward ratio is the distance from entry to
the corresponding target divided by risk_amount — not the raw target price
divided by risk. -/
theorem C4_risk_reward_formulas (cfg : GenConfig) (inp : GenInput)
    (stock today : Nat) (sig : Signal)
    (h : generateSignal cfg inp stock today = some sig) :
    sig.risk_amount = |sig.entry_price - sig.stop_loss| ∧
    sig.reward_ratio_1 = |sig.target_1 - sig.entry_price| / sig.risk_amount ∧
    sig.reward_ratio_2 = |sig.target_2 - sig.entry_price| / sig.risk_amount := by
  unfold generateSignal at h
  cases hc : chooseSignalType cfg inp with
  | none => rw [hc] at h; cases h
  | some t =>
      rw [hc] at h
      simp only at h
      by_cases hrr :
          absQ (target1For t (entryFor t inp) (absQ (entryFor t inp - stopLossFor t inp))
            - entryFor t inp) / absQ (entryFor t inp - stopLossFor t inp) < cfg.min_rr
      · rw [if_pos hrr] at h
        cases h
      · rw [if_neg hrr] at h
        cases h
        simp [absQ_eq_abs]

open Generator in
/-- Concrete instantiation of C4: the same emitted BUY signal has
risk_amount = |100 − 95| = 5, reward_ratio_1 = |107.5 − 100| / 5 = 1.5 and
reward_ratio_2 = |108 − 100| / 5 = 1.6. -/
theorem C4_risk_reward_formulas_witness :
    (5 : ℚ) = |(100 : ℚ) - 95| ∧
    (1.5 : ℚ) = |(107.5 : ℚ) - 100| / 5 ∧
    (1.6 : ℚ) = |(108 : ℚ) - 100| / 5 :=
  C4_risk_reward_formulas defaultConfig
    { total_score := 80, close := 105, prev_high := 100, ema_20 := 102,
      atr_14 := 4, supertrend_value := 95,
      supertrend_direction := TrendDirection.up, lowest_low_10 := 94,
      highest_high_10 := 108, level := none, has_active := false }
    7 20
    { stock_id := 7, signal_date := 20, signal_type := SignalType.BUY,
      signal_strength := SignalStrength.MODERATE,
      entry_price := 100, target_1 := 107.5, target_2 := 108,
      stop_loss := 95, risk_amount := 5, reward_ratio_1 := 1.5,
      reward_ratio_2 := 1.6, status := SignalStatus.ACTIVE, expiry_date := 25 }
    (by norm_num [generateSignal, chooseSignalType, entryFor, stopLossFor,
      target1For, target2For, strengthFor, minQ, maxQ, absQ, defaultConfig])

open SuperTrend in
/-- C5 counterexample: the claim says `supertrend_direction` takes exactly the
two values UP and DOWN, but the repository declares the column's values as
'BUY' and 'SELL' (schema comment) and the frontend chip colours
success/error by comparing against 'BUY' — under the claimed UP/DOWN domain
the chip could never distinguish the two directions. -/
theorem C5_direction_values_counterexample :
    "BUY" ∈ supertrendDirectionValues ∧
    ¬("BUY" = "UP" ∨ "BUY" = "DOWN") ∧
    getDirectionChipColor "BUY" = "success" ∧
    getDirectionChipColor "UP" = getDirectionChipColor "DOWN" := by
  refine ⟨by simp [supertrendDirectionValues], by simp, rfl, rfl⟩

open SuperTrend in
/-- C5 (amended): every direction the SuperTrend fold produces is one of the
two stored values 'BUY' (uptrend) or 'SELL' (downtrend), and one step changes
the direction only when the close crosses the currently active band: to
downtrend on a cross below the upper band, to uptrend on a cross above the
lower band. -/
theorem C5_direction_flip (mult : ℚ) (s : STState) (b : PriceBar) (atr : ℚ) :
    dirCode (stStep mult s b atr).direction ∈ supertrendDirectionValues ∧
    ((stStep mult s b atr).direction ≠ s.direction →
      ((stStep mult s b atr).direction = TrendDirection.down ∧
        crossedBelowUpper mult s b atr) ∨
      ((stStep mult s b atr).direction = TrendDirection.up ∧
        crossedAboveLower mult s b atr)) := by
  constructor
  · cases hdir : (stStep mult s b atr).direction <;>
      simp [dirCode, supertrendDirectionValues]
  · intro hne
    by_cases h1 : crossedBelowUpper mult s b atr
    · exact Or.inl ⟨by simp [stStep, h1], h1⟩
    · by_cases h2 : crossedAboveLower mult s b atr
      · exact Or.inr ⟨by simp [stStep, h1, h2], h2⟩
      · exact absurd
          (show (stStep mult s b atr).direction = s.direction by
            simp [stStep, h1, h2])
          hne

open SuperTrend in
/-- Concrete instantiation of C5 (amended): from an uptrend state with bands
(upper 100, lower 90) and previous close 101, a bar closing at 95 (basic upper
band 101) crosses below the upper band and flips the direction to downtrend,
whose stored value is 'SELL'. -/
theorem C5_direction_flip_witness :
    dirCode (stStep 3
      { upper := 100, lower := 90, direction := TrendDirection.up,
        prevClose := 101 }
      { date := 12, open_ := 100, high := 96, low := 94, close := 95,
        volume := 1000 }
      2).direction ∈ supertrendDirectionValues ∧
    ((stStep 3
      { upper := 100, lower := 90, direction := TrendDirection.up,
        prevClose := 101 }
      { date := 12, open_ := 100, high := 96, low := 94, close := 95,
        volume := 1000 }
      2).direction = TrendDirection.down ∧
      crossedBelowUpper 3
        { upper := 100, lower := 90, direction := TrendDirection.up,
          prevClose := 101 }
        { date := 12, open_ := 100, high := 96, low := 94, close := 95,
          volume := 1000 }
        2 ∨
     (stStep 3
      { upper := 100, lower := 90, direction := TrendDirection.up,
        prevClose := 101 }
      { date := 12, open_ := 100, high := 96, low := 94, close := 95,
        volume := 1000 }
      2).direction = TrendDirection.up ∧
      crossedAboveLower 3
        { upper := 100, lower := 90, direction := TrendDirection.up,
          prevClose := 101 }
        { date := 12, open_ := 100, high := 96, low := 94, close := 95,
          volume := 1000 }
        2) :=
  ⟨(C5_direction_flip 3 _ _ 2).1,
   (C5_direction_flip 3 _ _ 2).2 (by
      intro h
      norm_num [stStep, crossedBelowUpper, crossedAboveLower, finalUpper,
        finalLower] at h
      exact absurd h (by decide))⟩

open Indicators in
/-- C8: a price history whose length satisfies some windows but not others
yields a snapshot where exactly the unsatisfied indicator is unavailable
(`none`, never the number 0) while every satisfied-window indicator is
present — in particular, 50 ≤ bars < 100 (with positive volumes) gives
sma_100 = none while sma_20/50, ema_20/50, rsi_14, atr_14 and the volume
fields are all present. -/
theorem C8_partial_availability (bars : List PriceBar)
    (h50 : 50 ≤ bars.length) (h100 : bars.length < 100)
    (hvol : ∀ b ∈ bars, 0 < b.volume) :
    (computeSnapshot bars).sma_100 = none ∧
    (computeSnapshot bars).sma_100 ≠ some 0 ∧
    (computeSnapshot bars).sma_20.isSome ∧
    (computeSnapshot bars).sma_50.isSome ∧
    (computeSnapshot bars).ema_20.isSome ∧
    (computeSnapshot bars).ema_50.isSome ∧
    (computeSnapshot bars).rsi_14.isSome ∧
    (computeSnapshot bars).atr_14.isSome ∧
    (computeSnapshot bars).volume_avg_20.isSome ∧
    (computeSnapshot bars).volume_ratio.isSome := by
  have hclen : (bars.map PriceBar.close).length = bars.length :=
    List.length_map _ _
  have hnil : bars ≠ [] := by
    intro hb
    rw [hb] at h50
    simp at h50
  refine ⟨?_, ?_, ?_, ?_, ?_, ?_, ?_, ?_, ?_, ?_⟩
  · show sma 100 (bars.map PriceBar.close) = none
    unfold sma
    rw [if_neg]
    intro hc
    rw [hclen] at hc
    omega
  · show sma 100 (bars.map PriceBar.close) ≠ some 0
    unfold sma
    rw [if_neg]
    · exact fun hcon => Option.noConfusion hcon
    · intro hc
      rw [hclen] at hc
      omega
  · exact sma_isSome 20 _ (by rw [hclen]; omega) (by norm_num)
  · exact sma_isSome 50 _ (by rw [hclen]; omega) (by norm_num)
  · exact ema_isSome 20 _ (by rw [hclen]; omega) (by norm_num)
  · exact ema_isSome 50 _ (by rw [hclen]; omega) (by norm_num)
  · exact rsi14_isSome _ (by rw [hclen]; omega)
  · show (atr 14 bars).isSome
    unfold atr
    exact wilderSmooth_isSome 14 _ (by rw [trueRanges_length bars hnil]; omega)
      (by norm_num)
  · exact sma_isSome 20 _ (by rw [List.length_map]; omega) (by norm_num)
  · show (volumeRatio bars).isSome
    unfold volumeRatio
    have havg : (volumeAvg20 bars).isSome := by
      unfold volumeAvg20
      exact sma_isSome 20 _ (by rw [List.length_map]; omega) (by norm_num)
    cases ha : volumeAvg20 bars with
    | none => rw [ha] at havg; cases havg
    | some avg =>
        cases hb : bars.getLast? with
        | none =>
            exfalso
            rw [List.getLast?_eq_none_iff] at hb
            exact hnil hb
        | some b =>
            have hpos : 0 < avg := by
              apply sma_pos 20 (bars.map PriceBar.volume) avg
              · intro x hmem
                obtain ⟨p, hp, rfl⟩ := List.mem_map.mp hmem
                exact hvol p hp
              · exact ha
              · norm_num
            show (if avg = 0 then (none : Option ℚ)
              else some (b.volume / avg)).isSome = true
            rw [if_neg (ne_of_gt hpos)]
            rfl

open Indicators in
/-- Concrete instantiation of C8: 60 identical bars (volume 1000) give a
snapshot with sma_100 unavailable while sma_50, rsi_14 and volume_ratio are
present. -/
theorem C8_partial_availability_witness :
    (computeSnapshot (List.replicate 60
      { date := 0, open_ := 100, high := 101, low := 99, close := 100,
        volume := 1000 })).sma_100 = none ∧
    (computeSnapshot (List.replicate 60
      { date := 0, open_ := 100, high := 101, low := 99, close := 100,
        volume := 1000 })).sma_50.isSome ∧
    (computeSnapshot (List.replicate 60
      { date := 0, open_ := 100, high := 101, low := 99, close := 100,
        volume := 1000 })).rsi_14.isSome ∧
    (computeSnapshot (List.replicate 60
      { date := 0, open_ := 100, high := 101, low := 99, close := 100,
        volume := 1000 })).volume_ratio.isSome := by
  have h := C8_partial_availability
    (List.replicate 60
      { date := 0, open_ := 100, high := 101, low := 99, close := 100,
        volume := 1000 })
    (by simp)
    (by simp)
    (by
      intro b hb
      rw [List.eq_of_mem_replicate hb]
      norm_num)
  exact ⟨h.1, h.2.2.2.1, h.2.2.2.2.2.2.1, h.2.2.2.2.2.2.2.2.2⟩

open Frontend in
/-- C9: after either data-fetch handler completes, `loading` is false on every
path; when an awaited request rejects, the error slot holds the handler's
message while the slots filled by earlier successful requests keep their new
values and the slots of the failed and subsequent requests are unchanged; on
full success all slots hold the new data and the error slot is untouched. -/
theorem C9_fetch_handlers {α β A B C D E : Type} (r1 : Except String α)
    (r2 : Except String β) (q1 : Except String A) (q2 : Except String B)
    (q3 : Except String C) (q4 : Except String D) (q5 : Except String E)
    (sd : DashboardState α β) (st : StockDetailState A B C D E) :
    (fetchDashboardData r1 r2 sd).loading = false ∧
    (fetchStockData q1 q2 q3 q4 q5 st).loading = false ∧
    (∀ e, r1 = Except.error e →
      fetchDashboardData r1 r2 sd =
        { sd with loading := false,
                  error := some "Failed to fetch dashboard data" }) ∧
    (∀ v1 e, r1 = Except.ok v1 → r2 = Except.error e →
      fetchDashboardData r1 r2 sd =
        { sd with loading := false, topStocks := v1,
                  error := some "Failed to fetch dashboard data" }) ∧
    (∀ v1 v2, r1 = Except.ok v1 → r2 = Except.ok v2 →
      fetchDashboardData r1 r2 sd =
        { sd with loading := false, topStocks := v1,
                  marketSentiment := some v2 }) ∧
    (∀ e, q1 = Except.error e →
      fetchStockData q1 q2 q3 q4 q5 st =
        { st with loading := false,
                  error := some "Failed to fetch stock data" }) ∧
    (∀ v1 e, q1 = Except.ok v1 → q2 = Except.error e →
      fetchStockData q1 q2 q3 q4 q5 st =
        { st with loading := false, stockData := some v1,
                  error := some "Failed to fetch stock data" }) ∧
    (∀ v1 v2 e, q1 = Except.ok v1 → q2 = Except.ok v2 → q3 = Except.error e →
      fetchStockData q1 q2 q3 q4 q5 st =
        { st with loading := false, stockData := some v1, priceData := v2,
                  error := some "Failed to fetch stock data" }) ∧
    (∀ v1 v2 v3 e, q1 = Except.ok v1 → q2 = Except.ok v2 → q3 = Except.ok v3 →
        q4 = Except.error e →
      fetchStockData q1 q2 q3 q4 q5 st =
        { st with loading := false, stockData := some v1, priceData := v2,
                  indicatorData := v3,
                  error := some "Failed to fetch stock data" }) ∧
    (∀ v1 v2 v3 v4 e, q1 = Except.ok v1 → q2 = Except.ok v2 →
        q3 = Except.ok v3 → q4 = Except.ok v4 → q5 = Except.error e →
      fetchStockData q1 q2 q3 q4 q5 st =
        { st with loading := false, stockData := some v1, priceData := v2,
                  indicatorData := v3, signals := v4,
                  error := some "Failed to fetch stock data" }) ∧
    (∀ v1 v2 v3 v4 v5, q1 = Except.ok v1 → q2 = Except.ok v2 →
        q3 = Except.ok v3 → q4 = Except.ok v4 → q5 = Except.ok v5 →
      fetchStockData q1 q2 q3 q4 q5 st =
        { st with loading := false, stockData := some v1, priceData := v2,
                  indicatorData := v3, signals := v4, news := v5 }) := by
  refine ⟨?_, ?_, ?_, ?_, ?_, ?_, ?_, ?_, ?_, ?_, ?_⟩
  · cases r1 <;> cases r2 <;> rfl
  · cases q1 <;> cases q2 <;> cases q3 <;> cases q4 <;> cases q5 <;> rfl
  · intro e h1
    subst h1
    rfl
  · intro v1 e h1 h2
    subst h1
    subst h2
    rfl
  · intro v1 v2 h1 h2
    subst h1
    subst h2
    rfl
  · intro e h1
    subst h1
    rfl
  · intro v1 e h1 h2
    subst h1
    subst h2
    rfl
  · intro v1 v2 e h1 h2 h3
    subst h1
    subst h2
    subst h3
    rfl
  · intro v1 v2 v3 e h1 h2 h3 h4
    subst h1
    subst h2
    subst h3
    subst h4
    rfl
  · intro v1 v2 v3 v4 e h1 h2 h3 h4 h5
    subst h1
    subst h2
    subst h3
    subst h4
    subst h5
    rfl
  · intro v1 v2 v3 v4 v5 h1 h2 h3 h4 h5
    subst h1
    subst h2
    subst h3
    subst h4
    subst h5
    rfl

open Frontend in
/-- Concrete instantiation of C9: in StockDetail, when the stock and price
requests succeed and the indicators request rejects, the handler ends with
loading false, the stock and price slots holding the new data, the error
message set, and the signals/news slots untouched. -/
theorem C9_fetch_handlers_witness :
    fetchStockData (Except.ok 7) (Except.ok [(1 : Nat)])
      (Except.error "network down") (Except.ok [(2 : Nat)])
      (Except.ok [(3 : Nat)])
      { stockData := none, priceData := [], indicatorData := [(9 : Nat)],
        signals := [(4 : Nat)], news := [(5 : Nat)], loading := true,
        error := none } =
      { stockData := some 7, priceData := [(1 : Nat)],
        indicatorData := [(9 : Nat)], signals := [(4 : Nat)],
        news := [(5 : Nat)], loading := false,
        error := some "Failed to fetch stock data" } :=
  (C9_fetch_handlers (Except.ok ([] : List Nat)) (Except.ok (0 : Nat))
      (Except.ok 7) (Except.ok [(1 : Nat)]) (Except.error "network down")
      (Except.ok [(2 : Nat)]) (Except.ok [(3 : Nat)])
      { topStocks := ([] : List Nat), marketSentiment := none,
        loading := true, error := none }
      { stockData := none, priceData := [], indicatorData := [(9 : Nat)],
        signals := [(4 : Nat)], news := [(5 : Nat)], loading := true,
        error := none }).2.2.2.2.2.2.2.1
    7 [(1 : Nat)] "network down" rfl rfl rfl

open Frontend in
/-- C10: chartData has exactly one entry per element of priceData, in order:
entry i takes its date and OHLCV fields from priceData[i] and its
sma_20/sma_50/ema_20/rsi_14 from indicatorData[i] when that index exists,
leaving them undefined otherwise — pairing is purely positional, never by
matching date fields. -/
theorem C10_chart_positional_pairing (priceData : List PriceRow)
    (indicatorData : List IndicatorRow) :
    (chartData priceData indicatorData).length = priceData.length ∧
    ∀ i : Nat,
      (chartData priceData indicatorData)[i]? =
        (priceData[i]?).map (fun price =>
          { date := price.date, open_ := price.open_, high := price.high,
            low := price.low, close := price.close, volume := price.volume,
            sma_20 := match indicatorData[i]? with
              | some ind => ind.sma_20
              | none => none,
            sma_50 := match indicatorData[i]? with
              | some ind => ind.sma_50
              | none => none,
            ema_20 := match indicatorData[i]? with
              | some ind => ind.ema_20
              | none => none,
            rsi_14 := match indicatorData[i]? with
              | some ind => ind.rsi_14
              | none => none }) := by
  constructor
  · unfold chartData
    rw [List.length_map, List.enum_length]
  · intro i
    unfold chartData
    rw [List.getElem?_map, List.getElem?_enum]
    cases hp : priceData[i]? with
    | none => rfl
    | some price => rfl
